import Mathlib

/-!
Verification of the `RpcClient` in `chia/rpc/rpc_client.py`.

The embedding models Python objects that appear in this module as a small
inductive type `JsonValue` (JSON values plus `bytes`, which appear after
`get_connections` post-processing).  The aiohttp transport is modelled as a
function from the attempt index to the delivered HTTP response (status code
plus decoded JSON body); `response.raise_for_status()` raises exactly when the
status is 400 or higher, per aiohttp's documented behavior.  The local
filesystem is modelled by a predicate `fs : String → Bool` saying whether
`open(path, "a")` succeeds for a nonempty path; in CPython `open("", "a")`
always raises `FileNotFoundError`, which the model bakes into `openAppend`.
Side effects of `fetch` (POSTs, file opens/appends, sleeps) are returned as an
explicit event trace alongside the result.
-/

/-- Python values handled by this module: JSON values plus raw `bytes`
(produced by the `node_id` post-processing in `get_connections`).  Objects are
association lists of string keys, in insertion order. -/
inductive JsonValue where
  | null
  | bool (b : Bool)
  | num (n : Int)
  | str (s : String)
  | bytes (bs : List Nat)
  | arr (elems : List JsonValue)
  | obj (fields : List (String × JsonValue))

/-- Python truthiness of a value, as tested by `if not res_json["success"]`. -/
def JsonValue.isTruthy : JsonValue → Bool
  | .null => false
  | .bool b => b
  | .num n => n != 0
  | .str s => s ≠ ""
  | .bytes bs => ¬ bs.isEmpty
  | .arr elems => ¬ elems.isEmpty
  | .obj fields => ¬ fields.isEmpty

/-- First binding of a key in an association list (Python dict lookup). -/
def lookupField : List (String × JsonValue) → String → Option JsonValue
  | [], _ => none
  | (k, v) :: rest, key => if k = key then some v else lookupField rest key

/-- Python subscript `d[key]`: `none` models the `KeyError` raised on a
missing key (and the `TypeError` raised when the value is not a dict). -/
def JsonValue.getItem : JsonValue → String → Option JsonValue
  | .obj fields, key => lookupField fields key
  | _, _ => none

/-- Python dict assignment `d[key] = v`, replacing the first binding of the
key (keys are unique in decoded JSON objects). -/
def setField : List (String × JsonValue) → String → JsonValue → List (String × JsonValue)
  | [], _, _ => []
  | (k, v) :: rest, key, w => if k = key then (k, w) :: rest else (k, v) :: setField rest key w

/-- The response the transport delivers for one attempt: final status code and
the decoded JSON body (`await response.json()`). -/
structure HttpResponse where
  status : Nat
  body : JsonValue

/-- Observable side effects of `fetch`, in program order.  `fileAppend` stands
for the `print(..., file=f)` into the file opened in append mode. -/
inductive Event where
  | post (url : String) (request_json : JsonValue) (attempt : Nat)
  | fileOpen (path : String)
  | fileAppend (path : String)
  | sleepOneSecond

/-- Exceptions `fetch` and the bindings can raise. -/
inductive FetchError where
  /-- `aiohttp.ClientResponseError` from `response.raise_for_status()`. -/
  | httpError (status : Nat)
  /-- `KeyError` (or `TypeError` on a non-dict) from a subscript. -/
  | keyError (key : String)
  /-- `ValueError(res_json)` raised when the `success` field is falsy. -/
  | valueError (envelope : JsonValue)
  /-- `Exception(f"took {retry} retries: {res_json}")`. -/
  | retryAnomaly (retries : Nat) (envelope : JsonValue)
  /-- `FileNotFoundError` (or kin) from `open(id, "a")`. -/
  | fsError (path : String)
  /-- `ValueError` from `hexstr_to_bytes` on an invalid hex string. -/
  | hexError (s : String)
  /-- `TypeError` from operating on a value of the wrong Python type. -/
  | typeError
  /-- The unreachable fall-through of the retry loop. -/
  | loopExhausted

/-- Whether `open(path, "a")` succeeds.  In CPython, `open("", "a")` raises
`FileNotFoundError` unconditionally; nonempty paths succeed or fail according
to the filesystem `fs`. -/
def openAppend (fs : String → Bool) (path : String) : Bool :=
  if path = "" then false else fs path

/-- `retries[-1]` for `retries = range(5)`. -/
def lastRetry : Nat := 4

/-- The body of `RpcClient.fetch`'s `for retry in retries:` loop, run over the
remaining attempt indices.  Mirrors the source line by line: on each attempt a
POST is issued; on attempt 0 with a nonempty `id` the file named `id` is
opened for appending and a diagnostic line written (`FileNotFoundError`
aborting the call if the open fails); a 404 on a non-final attempt logs to
`open(id, "a")` (unconditionally, even for the empty `id`), sleeps 1 second
and continues; `raise_for_status()` fails for statuses ≥ 400; a falsy
`res_json["success"]` raises `ValueError(res_json)`; a success on attempt
`retry ≠ 0` raises the retry-anomaly exception; otherwise the decoded envelope
is returned.  The `[]` case models the (unreachable) loop fall-through. -/
def fetchLoop (server : Nat → HttpResponse) (fs : String → Bool) (url : String)
    (request_json : JsonValue) (id : String) :
    List Nat → List Event × Except FetchError JsonValue
  | [] => ([], .error .loopExhausted)
  | retry :: rest =>
    let response := server retry
    let posted := Event.post url request_json retry
    let logEvents : List Event :=
      if retry = 0 ∧ id ≠ "" then
        if openAppend fs id then [.fileOpen id, .fileAppend id] else [.fileOpen id]
      else []
    if retry = 0 ∧ id ≠ "" ∧ ¬ openAppend fs id then
      (posted :: logEvents, .error (.fsError id))
    else if response.status = 404 ∧ retry ≠ lastRetry then
      if openAppend fs id then
        let tail := fetchLoop server fs url request_json id rest
        (posted :: logEvents ++ [Event.fileOpen id, Event.fileAppend id,
          Event.sleepOneSecond] ++ tail.1, tail.2)
      else
        (posted :: logEvents ++ [Event.fileOpen id], .error (.fsError id))
    else if 400 ≤ response.status then
      (posted :: logEvents, .error (.httpError response.status))
    else
      match response.body.getItem "success" with
      | none => (posted :: logEvents, .error (.keyError "success"))
      | some v =>
        if ¬ v.isTruthy then
          (posted :: logEvents, .error (.valueError response.body))
        else if retry ≠ 0 then
          (posted :: logEvents, .error (.retryAnomaly retry response.body))
        else
          (posted :: logEvents, .ok response.body)

/-- `RpcClient.fetch(path, request_json, id="")`: composes the target URL as
`self.url + path + "?" + id` and runs the loop over `range(5)`. -/
def fetch (server : Nat → HttpResponse) (fs : String → Bool) (baseUrl path : String)
    (request_json : JsonValue) (id : String) : List Event × Except FetchError JsonValue :=
  fetchLoop server fs (baseUrl ++ path ++ "?" ++ id) request_json id (List.range 5)

/-- Value of a lowercase hexadecimal digit character. -/
def hexDigitVal (c : Char) : Option Nat :=
  if c = '0' then some 0 else if c = '1' then some 1
  else if c = '2' then some 2 else if c = '3' then some 3
  else if c = '4' then some 4 else if c = '5' then some 5
  else if c = '6' then some 6 else if c = '7' then some 7
  else if c = '8' then some 8 else if c = '9' then some 9
  else if c = 'a' then some 10 else if c = 'b' then some 11
  else if c = 'c' then some 12 else if c = 'd' then some 13
  else if c = 'e' then some 14 else if c = 'f' then some 15
  else none

/-- Lowercase hexadecimal digit character of a value below 16. -/
def hexDigitChar (n : Nat) : Char :=
  match n with
  | 0 => '0' | 1 => '1' | 2 => '2' | 3 => '3' | 4 => '4' | 5 => '5'
  | 6 => '6' | 7 => '7' | 8 => '8' | 9 => '9' | 10 => 'a' | 11 => 'b'
  | 12 => 'c' | 13 => 'd' | 14 => 'e' | 15 => 'f' | _ => '*'

/-- Decode a character list two hex digits at a time; `none` on odd length or
a non-hex-digit character. -/
def hexPairsToBytes : List Char → Option (List Nat)
  | [] => some []
  | [_] => none
  | hi :: lo :: rest =>
    match hexDigitVal hi, hexDigitVal lo, hexPairsToBytes rest with
    | some h, some l, some bs => some ((16 * h + l) :: bs)
    | _, _, _ => none

/-- Modelled from the spec: `chia.util.byte_types.hexstr_to_bytes` is not
under `src/`; §4.2 and §8 of the spec describe it as decoding a `node_id` hex
string into raw bytes such that re-encoding the bytes reproduces the original
string, so it is modelled as strict (lowercase, even-length, unprefixed) hex
decoding. -/
def hexstr_to_bytes (s : String) : Option (List Nat) :=
  hexPairsToBytes s.data

/-- Encode bytes as a lowercase hex character list (Python `bytes.hex()`). -/
def bytesToHexChars : List Nat → List Char
  | [] => []
  | b :: rest => hexDigitChar (b / 16) :: hexDigitChar (b % 16) :: bytesToHexChars rest

/-- Python `bytes.hex()`: lowercase hex string of a byte sequence. -/
def bytesToHex (bs : List Nat) : String :=
  ⟨bytesToHexChars bs⟩

/-- `connection["node_id"] = hexstr_to_bytes(connection["node_id"])` for one
connection record: fails like Python on a non-dict record, a missing
`node_id`, a non-string value, or an invalid hex string. -/
def decodeConnection (c : JsonValue) : Except FetchError JsonValue :=
  match c with
  | .obj fields =>
    match lookupField fields "node_id" with
    | some (.str s) =>
      match hexstr_to_bytes s with
      | some bs => .ok (.obj (setField fields "node_id" (.bytes bs)))
      | none => .error (.hexError s)
    | some _ => .error .typeError
    | none => .error (.keyError "node_id")
  | _ => .error .typeError

/-- The `for connection in response["connections"]:` loop: decode each
record's `node_id` in order, the first failure aborting the call. -/
def decodeConnections : List JsonValue → Except FetchError (List JsonValue)
  | [] => .ok []
  | c :: rest =>
    match decodeConnection c with
    | .error e => .error e
    | .ok c' =>
      match decodeConnections rest with
      | .error e => .error e
      | .ok rest' => .ok (c' :: rest')

/-- The request body `get_connections` builds: `{}`, with `node_type` added
when a filter is supplied. -/
def getConnectionsRequest (node_type : Option Int) : JsonValue :=
  match node_type with
  | some v => .obj [("node_type", .num v)]
  | none => .obj []

/-- Post-processing of the fetched envelope in `get_connections`: extract
`response["connections"]` and decode each record's `node_id` in place; the
result is the (mutated) list of records, not the whole envelope.  A non-list
`connections` value is modelled as a `TypeError` (Python would eventually
raise one when subscripting the iterated elements). -/
def connectionsOf (r : Except FetchError JsonValue) : Except FetchError JsonValue :=
  match r with
  | .error e => .error e
  | .ok response =>
    match response.getItem "connections" with
    | some (.arr conns) =>
      match decodeConnections conns with
      | .ok conns' => .ok (.arr conns')
      | .error e => .error e
    | some _ => .error .typeError
    | none => .error (.keyError "connections")

/-- `RpcClient.get_connections(node_type=None)`: the call goes through
`fetch` with the default empty `id`, and the result is
`response["connections"]` with every `node_id` hex-decoded. -/
def get_connections (server : Nat → HttpResponse) (fs : String → Bool)
    (baseUrl : String) (node_type : Option Int) :
    List Event × Except FetchError JsonValue :=
  let r := fetch server fs baseUrl "get_connections" (getConnectionsRequest node_type) ""
  (r.1, connectionsOf r.2)

/-- `RpcClient.open_connection(host, port)`. -/
def open_connection (server : Nat → HttpResponse) (fs : String → Bool)
    (baseUrl : String) (host : String) (port : Int) :
    List Event × Except FetchError JsonValue :=
  fetch server fs baseUrl "open_connection" (.obj [("host", .str host), ("port", .num port)]) ""

/-- `RpcClient.close_connection(node_id)`: the body carries `node_id.hex()`. -/
def close_connection (server : Nat → HttpResponse) (fs : String → Bool)
    (baseUrl : String) (node_id : List Nat) :
    List Event × Except FetchError JsonValue :=
  fetch server fs baseUrl "close_connection" (.obj [("node_id", .str (bytesToHex node_id))]) ""

/-- `RpcClient.stop_node()`. -/
def stop_node (server : Nat → HttpResponse) (fs : String → Bool)
    (baseUrl : String) : List Event × Except FetchError JsonValue :=
  fetch server fs baseUrl "stop_node" (.obj []) ""

/-- `RpcClient.healthz()`. -/
def healthz (server : Nat → HttpResponse) (fs : String → Bool)
    (baseUrl : String) : List Event × Except FetchError JsonValue :=
  fetch server fs baseUrl "healthz" (.obj []) ""

/-- Shutdown-relevant state of a client handle: whether the Transport session
is still open, and `closing_task` (`none` before `close()` is called; after
`close()` it holds the task created by `asyncio.create_task(self.session.close())`,
with `true` once that task has completed). -/
structure LifecycleState where
  sessionOpen : Bool
  closingTask : Option Bool

/-- `RpcClient.close()`: creates the closing task and returns immediately
without awaiting it (the session is not yet known to be closed). -/
def close (s : LifecycleState) : LifecycleState :=
  { s with closingTask := some false }

/-- `RpcClient.await_closed()`: if `closing_task` is `None` it returns at once
without suspending (the returned `Bool` records whether a suspension
happened); otherwise it awaits the task, which completes `session.close()`. -/
def await_closed (s : LifecycleState) : LifecycleState × Bool :=
  match s.closingTask with
  | none => (s, false)
  | some _ => ({ sessionOpen := false, closingTask := some true }, true)

/-- Events that are POST requests. -/
def isPost : Event → Bool
  | .post _ _ _ => true
  | _ => false

/-- The POST requests among a trace of events. -/
def postEvents (evs : List Event) : List Event :=
  evs.filter isPost

/-- How one processed connection record relates to the record received on the
wire: the wire record is a dict whose `node_id` is a hex string, the
processed record is the same dict with `node_id` replaced by the decoded
bytes, and re-encoding those bytes reproduces the wire string. -/
def decodedRecord (orig proc : JsonValue) : Prop :=
  ∃ fields s bs, orig = .obj fields
    ∧ lookupField fields "node_id" = some (.str s)
    ∧ hexstr_to_bytes s = some bs
    ∧ bytesToHex bs = s
    ∧ proc = .obj (setField fields "node_id" (.bytes bs))

/-- Base URL of a client created for `https://localhost:8555/`. -/
def baseUrlEx : String := "https://localhost:8555/"

/-- A filesystem on which every nonempty path opens for appending. -/
def fsAll : String → Bool := fun _ => true

/-- A filesystem on which no path opens for appending. -/
def fsNone : String → Bool := fun _ => false

/-- Transport scenario: 200 with `{"success": true, "x": 1}` on every
attempt. -/
def srvOkX1 : Nat → HttpResponse :=
  fun _ => ⟨200, .obj [("success", .bool true), ("x", .num 1)]⟩

/-- Transport scenario: 404 on attempts 0 through 3, then 200 with
`{"success": true}` on attempt 4. -/
def srv404then200 : Nat → HttpResponse :=
  fun n => if n < 4 then ⟨404, .null⟩ else ⟨200, .obj [("success", .bool true)]⟩

/-- Transport scenario: 200 with an envelope that has no `success` field. -/
def srvNoSuccess : Nat → HttpResponse :=
  fun _ => ⟨200, .obj [("x", .num 1)]⟩

/-- Transport scenario: 404 on every attempt. -/
def srv404 : Nat → HttpResponse :=
  fun _ => ⟨404, .obj []⟩

/-- Transport scenario: 200 with `{"success": false, "error": "bad"}`. -/
def srvFalse : Nat → HttpResponse :=
  fun _ => ⟨200, .obj [("success", .bool false), ("error", .str "bad")]⟩

/-- Transport scenario: 500 on every attempt. -/
def srv500 : Nat → HttpResponse :=
  fun _ => ⟨500, .null⟩

/-- Transport scenario: 304 (non-2xx, non-404) with a success envelope. -/
def srv304 : Nat → HttpResponse :=
  fun _ => ⟨304, .obj [("success", .bool true)]⟩

/-- Transport scenario: a successful `get_connections` envelope with one
connection whose `node_id` is the hex string `"0aff"`. -/
def srvConns : Nat → HttpResponse :=
  fun _ => ⟨200, .obj [("success", .bool true),
    ("connections", .arr [.obj [("node_id", .str "0aff"), ("type", .num 1)]])]⟩

theorem openAppend_ne_empty {fs : String → Bool} {id : String}
    (h : openAppend fs id = true) : id ≠ "" := by
  intro heq
  rw [heq] at h
  simp [openAppend] at h

theorem fetch_def (server : Nat → HttpResponse) (fs : String → Bool)
    (baseUrl path : String) (request_json : JsonValue) (id : String) :
    fetch server fs baseUrl path request_json id
      = fetchLoop server fs (baseUrl ++ path ++ "?" ++ id) request_json id [0, 1, 2, 3, 4] :=
  rfl

@[simp] theorem postEvents_nil : postEvents [] = [] := rfl

@[simp] theorem postEvents_cons_post (u : String) (b : JsonValue) (a : Nat) (evs : List Event) :
    postEvents (.post u b a :: evs) = .post u b a :: postEvents evs := rfl

@[simp] theorem postEvents_cons_fileOpen (p : String) (evs : List Event) :
    postEvents (.fileOpen p :: evs) = postEvents evs := rfl

@[simp] theorem postEvents_cons_fileAppend (p : String) (evs : List Event) :
    postEvents (.fileAppend p :: evs) = postEvents evs := rfl

@[simp] theorem postEvents_cons_sleep (evs : List Event) :
    postEvents (.sleepOneSecond :: evs) = postEvents evs := rfl

@[simp] theorem postEvents_append (a b : List Event) :
    postEvents (a ++ b) = postEvents a ++ postEvents b := by
  simp [postEvents, List.filter_append]

@[simp] theorem postEvents_ite (c : Prop) [Decidable c] (a b : List Event) :
    postEvents (if c then a else b) = if c then postEvents a else postEvents b := by
  split <;> rfl

/-- Claim C5: a first-attempt 200 response with envelope
`{"success": true, "x": 1}` is returned unchanged (provided the attempt-0
debug log either is disabled by the empty correlation id or succeeds). -/
theorem fetch_first_attempt_success
    (server : Nat → HttpResponse) (fs : String → Bool) (baseUrl path : String)
    (request_json : JsonValue) (id : String)
    (hlog : id = "" ∨ openAppend fs id = true)
    (h200 : (server 0).status = 200)
    (hbody : (server 0).body = .obj [("success", .bool true), ("x", .num 1)]) :
    (fetch server fs baseUrl path request_json id).2
      = .ok (.obj [("success", .bool true), ("x", .num 1)]) := by
  rcases hlog with hid | hopen
  · subst hid
    simp [fetch_def, fetchLoop, lastRetry, h200, hbody, JsonValue.getItem,
      lookupField, JsonValue.isTruthy]
  · have hid := openAppend_ne_empty hopen
    simp [fetch_def, fetchLoop, lastRetry, h200, hbody, hopen, hid,
      JsonValue.getItem, lookupField, JsonValue.isTruthy]

/-- Witness for C5: a concrete client and transport returning 200 with
`{"success": true, "x": 1}` on attempt 0. -/
theorem fetch_first_attempt_success_witness :
    (fetch srvOkX1 fsNone baseUrlEx "healthz" (.obj []) "").2
      = .ok (.obj [("success", .bool true), ("x", .num 1)]) :=
  fetch_first_attempt_success srvOkX1 fsNone baseUrlEx "healthz" (.obj []) ""
    (Or.inl rfl) rfl rfl

/-- Claim C1: a 2xx response whose envelope has a truthy `success`, obtained
on any attempt `k ≠ 0` (which requires 404s on attempts `0..k-1` and a
correlation-id file that opens), is not returned as a normal result: `fetch`
fails with the retry-anomaly error carrying the retry count and the decoded
payload. -/
theorem fetch_nonfirst_success_is_retry_anomaly
    (server : Nat → HttpResponse) (fs : String → Bool) (baseUrl path : String)
    (request_json : JsonValue) (id : String) (k : Nat) (v : JsonValue)
    (hk1 : 1 ≤ k) (hk4 : k ≤ 4)
    (hopen : openAppend fs id = true)
    (h404 : ∀ j, j < k → (server j).status = 404)
    (hst : (server k).status < 400)
    (hsucc : (server k).body.getItem "success" = some v)
    (htruthy : v.isTruthy = true) :
    (fetch server fs baseUrl path request_json id).2
      = .error (.retryAnomaly k (server k).body) := by
  have hid := openAppend_ne_empty hopen
  have hne404 : ¬ (server k).status = 404 := by omega
  have hlt : ¬ 400 ≤ (server k).status := by omega
  interval_cases k <;>
    simp [fetch_def, fetchLoop, lastRetry, hopen, hid, h404, hne404, hlt,
      hsucc, htruthy]

/-- Witness for C1 at the spec's scenario: 404 on attempts 0 through 3 and
200 with a success envelope on attempt 4 fails with the retry anomaly
reporting 4 retries. -/
theorem fetch_nonfirst_success_is_retry_anomaly_witness :
    (fetch srv404then200 fsAll baseUrlEx "healthz" (.obj []) "log").2
      = .error (.retryAnomaly 4 (.obj [("success", .bool true)])) :=
  fetch_nonfirst_success_is_retry_anomaly srv404then200 fsAll baseUrlEx "healthz"
    (.obj []) "log" 4 (.bool true) (by decide) (by decide) rfl
    (by decide) (by decide) rfl rfl

/-- Counterexample to C2 as stated: on a first-attempt 200 response whose
envelope `{"x": 1}` has no `success` field, `fetch` does not return the
envelope; it fails with a key-lookup error (`res_json["success"]` raises
`KeyError`). -/
theorem fetch_missing_success_cx :
    (fetch srvNoSuccess fsNone baseUrlEx "healthz" (.obj []) "").2
      = .error (.keyError "success")
    ∧ (fetch srvNoSuccess fsNone baseUrlEx "healthz" (.obj []) "").2
      ≠ .ok (.obj [("x", .num 1)]) := by
  refine ⟨rfl, ?_⟩
  intro h
  have h' : (Except.error (FetchError.keyError "success") : Except FetchError JsonValue)
      = Except.ok (.obj [("x", .num 1)]) := h
  exact Except.noConfusion h'

/-- Claim C2 (amended): a first-attempt response that passes
`raise_for_status` (status < 400) and whose decoded envelope has no `success`
field makes `fetch` fail with a key-lookup (`KeyError`) failure; the envelope
is never returned. -/
theorem fetch_missing_success_raises
    (server : Nat → HttpResponse) (fs : String → Bool) (baseUrl path : String)
    (request_json : JsonValue) (id : String)
    (hlog : id = "" ∨ openAppend fs id = true)
    (hst : (server 0).status < 400)
    (hmiss : (server 0).body.getItem "success" = none) :
    (fetch server fs baseUrl path request_json id).2 = .error (.keyError "success") := by
  have hne404 : ¬ (server 0).status = 404 := by omega
  have hlt : ¬ 400 ≤ (server 0).status := by omega
  rcases hlog with hid | hopen
  · subst hid
    simp [fetch_def, fetchLoop, lastRetry, hne404, hlt, hmiss]
  · have hid := openAppend_ne_empty hopen
    simp [fetch_def, fetchLoop, lastRetry, hopen, hid, hne404, hlt, hmiss]

/-- Witness for the amended C2 at a concrete envelope without `success`. -/
theorem fetch_missing_success_raises_witness :
    (fetch srvNoSuccess fsAll baseUrlEx "healthz" (.obj []) "log").2
      = .error (.keyError "success") :=
  fetch_missing_success_raises srvNoSuccess fsAll baseUrlEx "healthz" (.obj []) "log"
    (Or.inr rfl) (by decide) rfl

/-- Claim C3 names a code bug: with the default empty correlation id, a 404
on attempt 0 (a non-final attempt) does not sleep and retry; the 404 branch
executes `open(id, "a")` unconditionally, and `open("", "a")` raises
`FileNotFoundError`, aborting the call.  The trace shows one POST and the
failing file open, and no 1-second sleep. -/
theorem fetch_empty_id_404_aborts :
    (fetch srv404 fsAll baseUrlEx "healthz" (.obj []) "").2 = .error (.fsError "")
    ∧ (fetch srv404 fsAll baseUrlEx "healthz" (.obj []) "").1
      = [.post "https://localhost:8555/healthz?" (.obj []) 0, .fileOpen ""] :=
  ⟨rfl, rfl⟩

/-- Claim C4: an attempt that passes `raise_for_status` (status < 400) and
whose decoded envelope has `success = false` makes `fetch` fail with
`ValueError` carrying the full envelope, and no further POST is issued after
that attempt. -/
theorem fetch_success_false_semantic_error
    (server : Nat → HttpResponse) (fs : String → Bool) (baseUrl path : String)
    (request_json : JsonValue) (id : String) (k : Nat)
    (hk4 : k ≤ 4)
    (hlog : id = "" ∨ openAppend fs id = true)
    (hopen : 0 < k → openAppend fs id = true)
    (h404 : ∀ j, j < k → (server j).status = 404)
    (hst : (server k).status < 400)
    (hfalse : (server k).body.getItem "success" = some (.bool false)) :
    (fetch server fs baseUrl path request_json id).2
      = .error (.valueError (server k).body)
    ∧ postEvents (fetch server fs baseUrl path request_json id).1
      = (List.range (k + 1)).map
          (fun j => Event.post (baseUrl ++ path ++ "?" ++ id) request_json j) := by
  have hne404 : ¬ (server k).status = 404 := by omega
  have hlt : ¬ 400 ≤ (server k).status := by omega
  rcases Nat.eq_zero_or_pos k with hk0 | hkpos
  · subst hk0
    rcases hlog with hid | hopen'
    · subst hid
      constructor <;>
        simp [fetch_def, fetchLoop, lastRetry, hne404, hlt, hfalse,
          JsonValue.isTruthy, List.range_succ]
    · have hid := openAppend_ne_empty hopen'
      constructor <;>
        simp [fetch_def, fetchLoop, lastRetry, hopen', hid, hne404, hlt, hfalse,
          JsonValue.isTruthy, List.range_succ]
  · have hopen' := hopen hkpos
    have hid := openAppend_ne_empty hopen'
    interval_cases k <;> constructor <;>
      simp [fetch_def, fetchLoop, lastRetry, hopen', hid, h404, hne404, hlt,
        hfalse, JsonValue.isTruthy, List.range_succ]

/-- Witness for C4: 200 with `{"success": false, "error": "bad"}` on attempt
0 fails with the semantic error carrying that envelope, after exactly one
POST. -/
theorem fetch_success_false_semantic_error_witness :
    (fetch srvFalse fsNone baseUrlEx "healthz" (.obj []) "").2
      = .error (.valueError (.obj [("success", .bool false), ("error", .str "bad")]))
    ∧ postEvents (fetch srvFalse fsNone baseUrlEx "healthz" (.obj []) "").1
      = [.post "https://localhost:8555/healthz?" (.obj []) 0] :=
  fetch_success_false_semantic_error srvFalse fsNone baseUrlEx "healthz" (.obj []) ""
    0 (by decide) (Or.inl rfl) (fun h => absurd h (by decide))
    (fun j hj => absurd hj (Nat.not_lt_zero j)) (by decide) rfl

theorem fetchLoop_posts (server : Nat → HttpResponse) (fs : String → Bool)
    (url : String) (request_json : JsonValue) (id : String) :
    ∀ attempts : List Nat, ∃ n, n ≤ attempts.length ∧
      postEvents (fetchLoop server fs url request_json id attempts).1
        = (attempts.take n).map (fun a => Event.post url request_json a) := by
  intro attempts
  induction attempts with
  | nil => exact ⟨0, by simp, by simp [fetchLoop]⟩
  | cons retry rest ih =>
    obtain ⟨n, hn, hp⟩ := ih
    by_cases hr0 : retry = 0
    · subst hr0
      by_cases hid : id = ""
      · subst hid
        by_cases h2 : (server 0).status = 404 ∧ (0 : Nat) ≠ lastRetry
        · exact ⟨1, by simp, by simp [fetchLoop, h2, openAppend]⟩
        · by_cases h4 : 400 ≤ (server 0).status
          · exact ⟨1, by simp, by simp [fetchLoop, h2, h4]⟩
          · rcases hgi : (server 0).body.getItem "success" with _ | v
            · exact ⟨1, by simp, by simp [fetchLoop, h2, h4, hgi]⟩
            · by_cases ht : v.isTruthy = true
              · exact ⟨1, by simp, by simp [fetchLoop, h2, h4, hgi, ht]⟩
              · exact ⟨1, by simp, by simp [fetchLoop, h2, h4, hgi, ht]⟩
      · by_cases ho : openAppend fs id = true
        · by_cases h2 : (server 0).status = 404 ∧ (0 : Nat) ≠ lastRetry
          · refine ⟨n + 1, by simp; omega, ?_⟩
            simp [fetchLoop, hid, ho, h2, hp, List.take_succ_cons, List.map_take]
          · by_cases h4 : 400 ≤ (server 0).status
            · exact ⟨1, by simp, by simp [fetchLoop, hid, ho, h2, h4]⟩
            · rcases hgi : (server 0).body.getItem "success" with _ | v
              · exact ⟨1, by simp, by simp [fetchLoop, hid, ho, h2, h4, hgi]⟩
              · by_cases ht : v.isTruthy = true
                · exact ⟨1, by simp, by simp [fetchLoop, hid, ho, h2, h4, hgi, ht]⟩
                · exact ⟨1, by simp, by simp [fetchLoop, hid, ho, h2, h4, hgi, ht]⟩
        · exact ⟨1, by simp, by simp [fetchLoop, hid, ho]⟩
    · by_cases h2 : (server retry).status = 404 ∧ retry ≠ lastRetry
      · by_cases ho : openAppend fs id = true
        · refine ⟨n + 1, by simp; omega, ?_⟩
          simp [fetchLoop, hr0, ho, h2, hp, List.take_succ_cons, List.map_take]
        · exact ⟨1, by simp, by simp [fetchLoop, hr0, ho, h2]⟩
      · by_cases h4 : 400 ≤ (server retry).status
        · exact ⟨1, by simp, by simp [fetchLoop, hr0, h2, h4]⟩
        · rcases hgi : (server retry).body.getItem "success" with _ | v
          · exact ⟨1, by simp, by simp [fetchLoop, hr0, h2, h4, hgi]⟩
          · by_cases ht : v.isTruthy = true
            · exact ⟨1, by simp, by simp [fetchLoop, hr0, h2, h4, hgi, ht]⟩
            · exact ⟨1, by simp, by simp [fetchLoop, hr0, h2, h4, hgi, ht]⟩

/-- Counterexample to C6 as stated: a 304 response (non-2xx, non-404) does
not cause an HTTP-status failure — `raise_for_status` only fails for
statuses ≥ 400 — so `fetch` proceeds to the envelope and returns it. -/
theorem fetch_304_not_failed_cx :
    (fetch srv304 fsNone baseUrlEx "healthz" (.obj []) "").2
      = .ok (.obj [("success", .bool true)])
    ∧ (fetch srv304 fsNone baseUrlEx "healthz" (.obj []) "").2
      ≠ .error (.httpError 304)
    ∧ postEvents (fetch srv304 fsNone baseUrlEx "healthz" (.obj []) "").1
      = [.post "https://localhost:8555/healthz?" (.obj []) 0] := by
  refine ⟨rfl, ?_, rfl⟩
  intro h
  have h' : (Except.ok (.obj [("success", .bool true)]) : Except FetchError JsonValue)
      = Except.error (.httpError 304) := h
  exact Except.noConfusion h'

/-- Claim C6 (amended): `fetch` issues exactly one POST per attempt (the POST
trace is the attempt prefix `0..n-1` for some `n ≤ 5`), and any status ≥ 400
other than a 404 on a non-final attempt causes immediate failure with an
HTTP-status error carrying the status, with no further POSTs; statuses below
400 that are not 2xx (e.g. 304) are not failed by status. -/
theorem fetch_attempt_budget_and_http_errors :
    (∀ (server : Nat → HttpResponse) (fs : String → Bool)
      (baseUrl path : String) (request_json : JsonValue) (id : String),
      ∃ n, n ≤ 5 ∧
        postEvents (fetch server fs baseUrl path request_json id).1
          = ((List.range 5).take n).map
              (fun j => Event.post (baseUrl ++ path ++ "?" ++ id) request_json j))
    ∧ (∀ (server : Nat → HttpResponse) (fs : String → Bool)
      (baseUrl path : String) (request_json : JsonValue) (id : String) (k : Nat),
      k ≤ 4 →
      (id = "" ∨ openAppend fs id = true) →
      (0 < k → openAppend fs id = true) →
      (∀ j, j < k → (server j).status = 404) →
      400 ≤ (server k).status →
      ((server k).status = 404 → k = 4) →
      (fetch server fs baseUrl path request_json id).2
        = .error (.httpError ((server k).status))
      ∧ postEvents (fetch server fs baseUrl path request_json id).1
        = (List.range (k + 1)).map
            (fun j => Event.post (baseUrl ++ path ++ "?" ++ id) request_json j)) := by
  constructor
  · intro server fs baseUrl path request_json id
    obtain ⟨n, hn, hp⟩ := fetchLoop_posts server fs (baseUrl ++ path ++ "?" ++ id)
      request_json id (List.range 5)
    exact ⟨n, by simpa using hn, hp⟩
  · intro server fs baseUrl path request_json id k hk4 hlog hopen h404 hst h404k
    by_cases hk : k = 4
    · subst hk
      have hopen' := hopen (by omega)
      have hid := openAppend_ne_empty hopen'
      constructor <;>
        simp [fetch_def, fetchLoop, lastRetry, hopen', hid, h404, hst, List.range_succ]
    · have hne404 : ¬ (server k).status = 404 := fun h => hk (h404k h)
      rcases Nat.eq_zero_or_pos k with hk0 | hkpos
      · subst hk0
        rcases hlog with hid | hopen'
        · subst hid
          constructor <;>
            simp [fetch_def, fetchLoop, lastRetry, hne404, hst, List.range_succ]
        · have hid := openAppend_ne_empty hopen'
          constructor <;>
            simp [fetch_def, fetchLoop, lastRetry, hopen', hid, hne404, hst,
              List.range_succ]
      · have hopen' := hopen hkpos
        have hid := openAppend_ne_empty hopen'
        interval_cases k
        all_goals first
          | exact absurd rfl hk
          | constructor <;>
              simp [fetch_def, fetchLoop, lastRetry, hopen', hid, h404, hne404,
                hst, List.range_succ]

/-- Witness for the amended C6: a 500 on attempt 0 fails immediately with the
HTTP-status error after exactly one POST, and the POST trace is an attempt
prefix of length at most 5. -/
theorem fetch_attempt_budget_and_http_errors_witness :
    ((fetch srv500 fsNone baseUrlEx "healthz" (.obj []) "").2
      = .error (.httpError 500)
    ∧ postEvents (fetch srv500 fsNone baseUrlEx "healthz" (.obj []) "").1
      = [.post "https://localhost:8555/healthz?" (.obj []) 0])
    ∧ ∃ n, n ≤ 5 ∧
        postEvents (fetch srv500 fsNone baseUrlEx "healthz" (.obj []) "").1
          = ((List.range 5).take n).map
              (fun j => Event.post "https://localhost:8555/healthz?" (.obj []) j) := by
  have h2 := fetch_attempt_budget_and_http_errors.2 srv500 fsNone baseUrlEx "healthz"
    (.obj []) "" 0 (by decide) (Or.inl rfl) (fun h => absurd h (by decide))
    (fun j hj => absurd hj (Nat.not_lt_zero j)) (by decide) (fun h => absurd h (by decide))
  have h1 := fetch_attempt_budget_and_http_errors.1 srv500 fsNone baseUrlEx "healthz"
    (.obj []) ""
  exact ⟨⟨h2.1, h2.2⟩, h1⟩

theorem fetchLoop_cons0_open (server : Nat → HttpResponse) (fs : String → Bool)
    (url : String) (request_json : JsonValue) (id : String) (rest : List Nat)
    (hid : id ≠ "") (hopen : openAppend fs id = true) :
    ∃ evs, (fetchLoop server fs url request_json id (0 :: rest)).1
      = Event.post url request_json 0 :: Event.fileOpen id :: Event.fileAppend id :: evs := by
  by_cases h2 : (server 0).status = 404 ∧ (0 : Nat) ≠ lastRetry
  · exact ⟨Event.fileOpen id :: Event.fileAppend id :: Event.sleepOneSecond ::
      (fetchLoop server fs url request_json id rest).1,
      by simp [fetchLoop, hid, hopen, h2]⟩
  · by_cases h4 : 400 ≤ (server 0).status
    · exact ⟨[], by simp [fetchLoop, hid, hopen, h2, h4]⟩
    · rcases hgi : (server 0).body.getItem "success" with _ | v
      · exact ⟨[], by simp [fetchLoop, hid, hopen, h2, h4, hgi]⟩
      · by_cases ht : v.isTruthy = true
        · exact ⟨[], by simp [fetchLoop, hid, hopen, h2, h4, hgi, ht]⟩
        · exact ⟨[], by simp [fetchLoop, hid, hopen, h2, h4, hgi, ht]⟩

/-- Claim C10: `fetch` treats a non-empty correlation id as a filesystem
path.  With a non-empty id, attempt 0 opens the file named by the id (and
writes a diagnostic line when the open succeeds); a 404 on attempt 0 opens
the file regardless of whether the id is empty; and the branches fail with a
filesystem error whenever the id is not an openable path (the empty id never
is). -/
theorem fetch_correlation_id_file_io :
    (∀ (server : Nat → HttpResponse) (fs : String → Bool) (baseUrl path : String)
      (request_json : JsonValue) (id : String), id ≠ "" →
      Event.fileOpen id ∈ (fetch server fs baseUrl path request_json id).1)
    ∧ (∀ (server : Nat → HttpResponse) (fs : String → Bool) (baseUrl path : String)
      (request_json : JsonValue) (id : String), (server 0).status = 404 →
      Event.fileOpen id ∈ (fetch server fs baseUrl path request_json id).1)
    ∧ (∀ (server : Nat → HttpResponse) (fs : String → Bool) (baseUrl path : String)
      (request_json : JsonValue), (server 0).status = 404 →
      (fetch server fs baseUrl path request_json "").2 = .error (.fsError ""))
    ∧ (∀ (server : Nat → HttpResponse) (fs : String → Bool) (baseUrl path : String)
      (request_json : JsonValue) (id : String), id ≠ "" → fs id = false →
      (fetch server fs baseUrl path request_json id).2 = .error (.fsError id))
    ∧ (∀ (server : Nat → HttpResponse) (fs : String → Bool) (baseUrl path : String)
      (request_json : JsonValue) (id : String), id ≠ "" → fs id = true →
      Event.fileAppend id ∈ (fetch server fs baseUrl path request_json id).1) := by
  have part1 : ∀ (server : Nat → HttpResponse) (fs : String → Bool)
      (baseUrl path : String) (request_json : JsonValue) (id : String), id ≠ "" →
      Event.fileOpen id ∈ (fetch server fs baseUrl path request_json id).1 := by
    intro server fs baseUrl path request_json id hid
    by_cases ho : openAppend fs id = true
    · obtain ⟨evs, heq⟩ := fetchLoop_cons0_open server fs (baseUrl ++ path ++ "?" ++ id)
        request_json id [1, 2, 3, 4] hid ho
      rw [fetch_def, heq]
      simp
    · rw [fetch_def]
      simp [fetchLoop, hid, ho]
  have part5 : ∀ (server : Nat → HttpResponse) (fs : String → Bool)
      (baseUrl path : String) (request_json : JsonValue) (id : String),
      id ≠ "" → fs id = true →
      Event.fileAppend id ∈ (fetch server fs baseUrl path request_json id).1 := by
    intro server fs baseUrl path request_json id hid hfs
    have ho : openAppend fs id = true := by simp [openAppend, hid, hfs]
    obtain ⟨evs, heq⟩ := fetchLoop_cons0_open server fs (baseUrl ++ path ++ "?" ++ id)
      request_json id [1, 2, 3, 4] hid ho
    rw [fetch_def, heq]
    simp
  refine ⟨part1, ?_, ?_, ?_, part5⟩
  · intro server fs baseUrl path request_json id h404
    by_cases hid : id = ""
    · subst hid
      rw [fetch_def]
      simp [fetchLoop, h404, lastRetry, openAppend]
    · exact part1 server fs baseUrl path request_json id hid
  · intro server fs baseUrl path request_json h404
    rw [fetch_def]
    simp [fetchLoop, h404, lastRetry, openAppend]
  · intro server fs baseUrl path request_json id hid hfs
    rw [fetch_def]
    simp [fetchLoop, hid, openAppend, hfs]

/-- Witness for C10: the file named by the id is opened and written on
attempt 0 of a concrete call; a 404 with the empty id fails with a
filesystem error; and a non-openable non-empty id fails with a filesystem
error. -/
theorem fetch_correlation_id_file_io_witness :
    Event.fileOpen "log" ∈ (fetch srvOkX1 fsAll baseUrlEx "healthz" (.obj []) "log").1
    ∧ (fetch srv404 fsAll baseUrlEx "healthz" (.obj []) "").2 = .error (.fsError "")
    ∧ (fetch srvOkX1 fsNone baseUrlEx "healthz" (.obj []) "log").2 = .error (.fsError "log")
    ∧ Event.fileAppend "log" ∈ (fetch srvOkX1 fsAll baseUrlEx "healthz" (.obj []) "log").1 :=
  ⟨fetch_correlation_id_file_io.1 srvOkX1 fsAll baseUrlEx "healthz" (.obj []) "log"
      (by decide),
    fetch_correlation_id_file_io.2.2.1 srv404 fsAll baseUrlEx "healthz" (.obj []) rfl,
    fetch_correlation_id_file_io.2.2.2.1 srvOkX1 fsNone baseUrlEx "healthz" (.obj [])
      "log" (by decide) rfl,
    fetch_correlation_id_file_io.2.2.2.2 srvOkX1 fsAll baseUrlEx "healthz" (.obj [])
      "log" (by decide) rfl⟩

theorem hexDigit_spec {c : Char} {h : Nat} (hv : hexDigitVal c = some h) :
    h < 16 ∧ hexDigitChar h = c := by
  unfold hexDigitVal at hv
  by_cases e0 : c = '0'
  · rw [if_pos e0] at hv; injection hv with hval; subst hval; subst e0
    exact ⟨by decide, by decide⟩
  rw [if_neg e0] at hv
  by_cases e1 : c = '1'
  · rw [if_pos e1] at hv; injection hv with hval; subst hval; subst e1
    exact ⟨by decide, by decide⟩
  rw [if_neg e1] at hv
  by_cases e2 : c = '2'
  · rw [if_pos e2] at hv; injection hv with hval; subst hval; subst e2
    exact ⟨by decide, by decide⟩
  rw [if_neg e2] at hv
  by_cases e3 : c = '3'
  · rw [if_pos e3] at hv; injection hv with hval; subst hval; subst e3
    exact ⟨by decide, by decide⟩
  rw [if_neg e3] at hv
  by_cases e4 : c = '4'
  · rw [if_pos e4] at hv; injection hv with hval; subst hval; subst e4
    exact ⟨by decide, by decide⟩
  rw [if_neg e4] at hv
  by_cases e5 : c = '5'
  · rw [if_pos e5] at hv; injection hv with hval; subst hval; subst e5
    exact ⟨by decide, by decide⟩
  rw [if_neg e5] at hv
  by_cases e6 : c = '6'
  · rw [if_pos e6] at hv; injection hv with hval; subst hval; subst e6
    exact ⟨by decide, by decide⟩
  rw [if_neg e6] at hv
  by_cases e7 : c = '7'
  · rw [if_pos e7] at hv; injection hv with hval; subst hval; subst e7
    exact ⟨by decide, by decide⟩
  rw [if_neg e7] at hv
  by_cases e8 : c = '8'
  · rw [if_pos e8] at hv; injection hv with hval; subst hval; subst e8
    exact ⟨by decide, by decide⟩
  rw [if_neg e8] at hv
  by_cases e9 : c = '9'
  · rw [if_pos e9] at hv; injection hv with hval; subst hval; subst e9
    exact ⟨by decide, by decide⟩
  rw [if_neg e9] at hv
  by_cases ea : c = 'a'
  · rw [if_pos ea] at hv; injection hv with hval; subst hval; subst ea
    exact ⟨by decide, by decide⟩
  rw [if_neg ea] at hv
  by_cases eb : c = 'b'
  · rw [if_pos eb] at hv; injection hv with hval; subst hval; subst eb
    exact ⟨by decide, by decide⟩
  rw [if_neg eb] at hv
  by_cases ec : c = 'c'
  · rw [if_pos ec] at hv; injection hv with hval; subst hval; subst ec
    exact ⟨by decide, by decide⟩
  rw [if_neg ec] at hv
  by_cases ed : c = 'd'
  · rw [if_pos ed] at hv; injection hv with hval; subst hval; subst ed
    exact ⟨by decide, by decide⟩
  rw [if_neg ed] at hv
  by_cases ee : c = 'e'
  · rw [if_pos ee] at hv; injection hv with hval; subst hval; subst ee
    exact ⟨by decide, by decide⟩
  rw [if_neg ee] at hv
  by_cases ef : c = 'f'
  · rw [if_pos ef] at hv; injection hv with hval; subst hval; subst ef
    exact ⟨by decide, by decide⟩
  rw [if_neg ef] at hv
  exact Option.noConfusion hv

theorem hexDigitVal_lt {c : Char} {h : Nat} (hv : hexDigitVal c = some h) : h < 16 :=
  (hexDigit_spec hv).1

theorem hexDigitChar_val {c : Char} {h : Nat} (hv : hexDigitVal c = some h) :
    hexDigitChar h = c :=
  (hexDigit_spec hv).2

theorem hexPairs_roundtrip :
    ∀ (cs : List Char) (bs : List Nat), hexPairsToBytes cs = some bs → bytesToHexChars bs = cs
  | [], bs, h => by
    simp only [hexPairsToBytes, Option.some.injEq] at h
    subst h
    rfl
  | [c], bs, h => by
    simp [hexPairsToBytes] at h
  | hi :: lo :: rest, bs, h => by
    rcases hhi : hexDigitVal hi with _ | a
    · simp [hexPairsToBytes, hhi] at h
    · rcases hlo : hexDigitVal lo with _ | b
      · simp [hexPairsToBytes, hhi, hlo] at h
      · rcases hrest : hexPairsToBytes rest with _ | bs'
        · simp [hexPairsToBytes, hhi, hlo, hrest] at h
        · have hb : (16 * a + b) :: bs' = bs := by
            simpa [hexPairsToBytes, hhi, hlo, hrest] using h
          subst hb
          have ha16 : a < 16 := hexDigitVal_lt hhi
          have hb16 : b < 16 := hexDigitVal_lt hlo
          have hdiv : (16 * a + b) / 16 = a := by omega
          have hmod : (16 * a + b) % 16 = b := by omega
          rw [bytesToHexChars, hdiv, hmod, hexDigitChar_val hhi, hexDigitChar_val hlo,
            hexPairs_roundtrip rest bs' hrest]

theorem hexstr_roundtrip {s : String} {bs : List Nat}
    (h : hexstr_to_bytes s = some bs) : bytesToHex bs = s := by
  show String.mk (bytesToHexChars bs) = s
  rw [hexPairs_roundtrip s.data bs h]

theorem decodeConnection_spec {c c' : JsonValue}
    (h : decodeConnection c = .ok c') : decodedRecord c c' := by
  rcases c with _ | b | n | s | bs | elems | fields <;>
    try simp [decodeConnection] at h
  rcases hlk : lookupField fields "node_id" with _ | v
  · simp [decodeConnection, hlk] at h
  · rcases v with _ | b | n | s | bs | elems | fields2 <;>
      try simp [decodeConnection, hlk] at h
    rcases hhex : hexstr_to_bytes s with _ | bs2
    · simp [decodeConnection, hlk, hhex] at h
    · have hc' : JsonValue.obj (setField fields "node_id" (.bytes bs2)) = c' := by
        simpa [decodeConnection, hlk, hhex] using h
      exact ⟨fields, s, bs2, rfl, hlk, hhex, hexstr_roundtrip hhex, hc'.symm⟩

theorem decodeConnections_spec :
    ∀ {conns conns' : List JsonValue}, decodeConnections conns = .ok conns' →
      List.Forall₂ decodedRecord conns conns' := by
  intro conns
  induction conns with
  | nil =>
    intro conns' h
    simp only [decodeConnections, Except.ok.injEq] at h
    subst h
    exact List.Forall₂.nil
  | cons c rest ih =>
    intro conns' h
    rcases hdc : decodeConnection c with e | c1
    · simp [decodeConnections, hdc] at h
    · rcases hrest : decodeConnections rest with e | rest1
      · simp [decodeConnections, hdc, hrest] at h
      · have hcons : c1 :: rest1 = conns' := by
          simpa [decodeConnections, hdc, hrest] using h
        subst hcons
        exact List.Forall₂.cons (decodeConnection_spec hdc) (ih hrest)

/-- Claim C7: in every successful `get_connections` result, every record's
`node_id` has been decoded from the hex string received on the wire into raw
bytes, and re-encoding the bytes reproduces the wire string
(`hexstr_to_bytes` is spec-modelled: it is not under `src/`). -/
theorem get_connections_hex_roundtrip
    (server : Nat → HttpResponse) (fs : String → Bool) (baseUrl : String)
    (node_type : Option Int) (conns' : List JsonValue)
    (h : (get_connections server fs baseUrl node_type).2 = .ok (.arr conns')) :
    ∃ env conns,
      (fetch server fs baseUrl "get_connections" (getConnectionsRequest node_type) "").2
        = .ok env
      ∧ env.getItem "connections" = some (.arr conns)
      ∧ List.Forall₂ decodedRecord conns conns' := by
  have h2 : connectionsOf
      (fetch server fs baseUrl "get_connections" (getConnectionsRequest node_type) "").2
      = .ok (.arr conns') := h
  rcases hf : (fetch server fs baseUrl "get_connections" (getConnectionsRequest node_type) "").2
    with e | env
  · rw [hf] at h2
    simp [connectionsOf] at h2
  · rw [hf] at h2
    rcases hgi : env.getItem "connections" with _ | val
    · simp [connectionsOf, hgi] at h2
    · rcases val with _ | b | n | s | bs | conns | fields <;>
        try simp [connectionsOf, hgi] at h2
      rcases hdc : decodeConnections conns with e | conns1
      · simp [connectionsOf, hgi, hdc] at h2
      · have harr : conns1 = conns' := by
          simpa [connectionsOf, hgi, hdc] using h2
        subst harr
        exact ⟨env, conns, rfl, hgi, decodeConnections_spec hdc⟩

/-- Witness for C7: a concrete `get_connections` whose single record has
`node_id` `"0aff"` on the wire; the returned record holds the bytes
`[0x0a, 0xff]`. -/
theorem get_connections_hex_roundtrip_witness :
    ∃ env conns,
      (fetch srvConns fsNone baseUrlEx "get_connections" (getConnectionsRequest none) "").2
        = .ok env
      ∧ env.getItem "connections" = some (.arr conns)
      ∧ List.Forall₂ decodedRecord conns
          [.obj [("node_id", .bytes [10, 255]), ("type", .num 1)]] :=
  get_connections_hex_roundtrip srvConns fsNone baseUrlEx none
    [.obj [("node_id", .bytes [10, 255]), ("type", .num 1)]] rfl

/-- Counterexample to C8 as stated: `get_connections` does not return the
Dispatcher's full decoded envelope (even after `node_id` post-processing); it
returns only the `connections` list extracted from it. -/
theorem get_connections_not_envelope_cx :
    (get_connections srvConns fsNone baseUrlEx none).2
      = .ok (.arr [.obj [("node_id", .bytes [10, 255]), ("type", .num 1)]])
    ∧ (JsonValue.arr [.obj [("node_id", .bytes [10, 255]), ("type", .num 1)]])
      ≠ .obj [("success", .bool true),
          ("connections", .arr [.obj [("node_id", .bytes [10, 255]), ("type", .num 1)]])]
    ∧ (JsonValue.arr [.obj [("node_id", .bytes [10, 255]), ("type", .num 1)]])
      ≠ (srvConns 0).body :=
  ⟨rfl, fun h => JsonValue.noConfusion h, fun h => JsonValue.noConfusion h⟩

/-- Claim C8 (amended): `open_connection`, `close_connection`, `stop_node`
and `healthz` return the Dispatcher's decoded envelope unchanged and
propagate every Dispatcher failure unchanged; `get_connections` also
propagates every Dispatcher failure unchanged, but on success returns the
envelope's `connections` list with each `node_id` hex-decoded, not the full
envelope. -/
theorem bindings_return_and_propagate :
    (∀ (server : Nat → HttpResponse) (fs : String → Bool) (baseUrl host : String)
      (port : Int),
      (open_connection server fs baseUrl host port).2
        = (fetch server fs baseUrl "open_connection"
            (.obj [("host", .str host), ("port", .num port)]) "").2)
    ∧ (∀ (server : Nat → HttpResponse) (fs : String → Bool) (baseUrl : String)
      (node_id : List Nat),
      (close_connection server fs baseUrl node_id).2
        = (fetch server fs baseUrl "close_connection"
            (.obj [("node_id", .str (bytesToHex node_id))]) "").2)
    ∧ (∀ (server : Nat → HttpResponse) (fs : String → Bool) (baseUrl : String),
      (stop_node server fs baseUrl).2 = (fetch server fs baseUrl "stop_node" (.obj []) "").2)
    ∧ (∀ (server : Nat → HttpResponse) (fs : String → Bool) (baseUrl : String),
      (healthz server fs baseUrl).2 = (fetch server fs baseUrl "healthz" (.obj []) "").2)
    ∧ (∀ (server : Nat → HttpResponse) (fs : String → Bool) (baseUrl : String)
      (node_type : Option Int) (e : FetchError),
      (fetch server fs baseUrl "get_connections" (getConnectionsRequest node_type) "").2
        = .error e →
      (get_connections server fs baseUrl node_type).2 = .error e)
    ∧ (∀ (server : Nat → HttpResponse) (fs : String → Bool) (baseUrl : String)
      (node_type : Option Int) (env : JsonValue) (conns conns' : List JsonValue),
      (fetch server fs baseUrl "get_connections" (getConnectionsRequest node_type) "").2
        = .ok env →
      env.getItem "connections" = some (.arr conns) →
      decodeConnections conns = .ok conns' →
      (get_connections server fs baseUrl node_type).2 = .ok (.arr conns')) := by
  refine ⟨fun _ _ _ _ _ => rfl, fun _ _ _ _ => rfl, fun _ _ _ => rfl, fun _ _ _ => rfl,
    ?_, ?_⟩
  · intro server fs baseUrl node_type e hf
    show connectionsOf
      (fetch server fs baseUrl "get_connections" (getConnectionsRequest node_type) "").2
      = .error e
    rw [hf]
    rfl
  · intro server fs baseUrl node_type env conns conns' hf hgi hdc
    show connectionsOf
      (fetch server fs baseUrl "get_connections" (getConnectionsRequest node_type) "").2
      = .ok (.arr conns')
    rw [hf]
    simp [connectionsOf, hgi, hdc]

/-- Witness for the amended C8: a Dispatcher failure (500) propagates through
`get_connections` unchanged, and on a successful envelope the decoded
`connections` list is returned. -/
theorem bindings_return_and_propagate_witness :
    (get_connections srv500 fsNone baseUrlEx none).2 = .error (.httpError 500)
    ∧ (get_connections srvConns fsNone baseUrlEx none).2
      = .ok (.arr [.obj [("node_id", .bytes [10, 255]), ("type", .num 1)]]) :=
  ⟨bindings_return_and_propagate.2.2.2.2.1 srv500 fsNone baseUrlEx none
      (.httpError 500) rfl,
    bindings_return_and_propagate.2.2.2.2.2 srvConns fsNone baseUrlEx none
      (.obj [("success", .bool true),
        ("connections", .arr [.obj [("node_id", .str "0aff"), ("type", .num 1)]])])
      [.obj [("node_id", .str "0aff"), ("type", .num 1)]]
      [.obj [("node_id", .bytes [10, 255]), ("type", .num 1)]] rfl rfl rfl⟩

/-- Claim C9: `await_closed()` with no prior `close()` returns immediately
without suspending and leaves the state unchanged; after `close()`,
`await_closed()` awaits the closing task, so at its return the Transport
session's close has completed. -/
theorem await_closed_spec :
    (∀ s : LifecycleState, s.closingTask = none → await_closed s = (s, false))
    ∧ (∀ s : LifecycleState,
      (await_closed (close s)).1.sessionOpen = false
      ∧ (await_closed (close s)).1.closingTask = some true
      ∧ (await_closed (close s)).2 = true) := by
  constructor
  · intro s h
    unfold await_closed
    rw [h]
  · intro s
    exact ⟨rfl, rfl, rfl⟩

/-- Witness for C9: a freshly constructed client (open session, no closing
task) and the same client after `close()`. -/
theorem await_closed_spec_witness :
    await_closed ⟨true, none⟩ = (⟨true, none⟩, false)
    ∧ (await_closed (close ⟨true, none⟩)).1.sessionOpen = false :=
  ⟨await_closed_spec.1 ⟨true, none⟩ rfl, (await_closed_spec.2 ⟨true, none⟩).1⟩
